import Mathlib

/-!
# Video-sharing backend: controllers over a document store

A shallow embedding of the request handlers of `tweet.controller.js`,
`video.controller.js` and `user.controller.js`, together with the helpers of
`utils/cloudinary.js`.  Handlers are functions from a `World` (database, media
store, local disk, log of persistence calls) to a result and a new `World`.
Aggregation pipelines are translated stage by stage over untyped documents.
-/

set_option autoImplicit false

namespace Fullstack

/-! ## Identifiers and strings -/

/-- An ObjectId, identified with the 96-bit number its 24 hexadecimal digits denote;
two ObjectIds are `equals` exactly when these numbers agree. -/
abbrev ObjectId := Nat

/-- Value of one hexadecimal digit, `none` for any other character. -/
def hexDigit (c : Char) : Option Nat :=
  if 48 ≤ c.toNat ∧ c.toNat ≤ 57 then some (c.toNat - 48)
  else if 97 ≤ c.toNat ∧ c.toNat ≤ 102 then some (c.toNat - 87)
  else if 65 ≤ c.toNat ∧ c.toNat ≤ 70 then some (c.toNat - 55)
  else none

/-- The check `isValidObjectId` of the document-store library, on strings: a string
is accepted when it consists of exactly 24 hexadecimal digits. -/
def isValidObjectId (s : String) : Bool :=
  s.data.length == 24 && s.data.all (fun c => (hexDigit c).isSome)

/-- The number denoted by a list of hexadecimal digits (most significant first). -/
def hexValue (cs : List Char) : Nat :=
  cs.foldl (fun acc c => 16 * acc + (hexDigit c).getD 0) 0

/-- `mongoose.Types.ObjectId.createFromHexString` and `new mongoose.Types.ObjectId(s)` on
a string: the identifier when the string is 24 hexadecimal digits, `none` when the library
throws. -/
def createFromHexString (s : String) : Option ObjectId :=
  if isValidObjectId s then some (hexValue s.data) else none

/-- White space as removed by `String.prototype.trim`. -/
def isWhiteSpace (c : Char) : Bool :=
  c.toNat == 9 || c.toNat == 10 || c.toNat == 11 || c.toNat == 12 || c.toNat == 13 ||
  c.toNat == 32 || c.toNat == 160 || c.toNat == 5760 ||
  (8192 ≤ c.toNat && c.toNat ≤ 8202) || c.toNat == 8232 || c.toNat == 8233 ||
  c.toNat == 8239 || c.toNat == 8287 || c.toNat == 12288 || c.toNat == 65279

/-- The method `trim` of strings: white space removed from both ends. -/
def trim (s : String) : String :=
  ⟨((s.data.dropWhile isWhiteSpace).reverse.dropWhile isWhiteSpace).reverse⟩

/-- Truthiness of a string: the empty string is falsy. -/
def truthy (s : String) : Bool := !s.data.isEmpty

/-! ## Documents -/

/-- Values stored in documents and produced by aggregation stages. -/
inductive Value where
  | null : Value
  | bool : Bool → Value
  | num : Int → Value
  | str : String → Value
  | oid : ObjectId → Value
  | arr : List Value → Value
  | doc : List (String × Value) → Value
  deriving Repr

/-- A document: its fields in order. -/
abbrev Doc := List (String × Value)

/-- The value of field `k` of a document, `none` when the field is missing. -/
def Doc.get? (d : Doc) (k : String) : Option Value :=
  (d.find? (fun kv => kv.1 == k)).map (fun kv => kv.2)

/-- The document without field `k`. -/
def Doc.unset (d : Doc) (k : String) : Doc :=
  d.filter (fun kv => kv.1 != k)

/-- The document with field `k` set to `v`: replaced in place when present, added at the
end otherwise. -/
def Doc.set (d : Doc) (k : String) (v : Value) : Doc :=
  if d.any (fun kv => kv.1 == k) then d.map (fun kv => if kv.1 == k then (k, v) else kv)
  else d ++ [(k, v)]

/-- The field names of a document, in order. -/
def Doc.keys (d : Doc) : List String := d.map (fun kv => kv.1)

/-- Equality of two values as the query engine compares scalars; arrays and embedded
documents are never equal to anything here (no query below compares them). -/
def Value.scalarEq : Value → Value → Bool
  | .null, .null => true
  | .bool a, .bool b => a == b
  | .num a, .num b => a == b
  | .str a, .str b => a == b
  | .oid a, .oid b => a == b
  | _, _ => false

/-- Whether a stored field (`none` when missing) equals a queried value: a missing field
equals `null`, and an array field equals a value that is one of its elements. -/
def fieldEq (stored : Option Value) (q : Value) : Bool :=
  match stored with
  | none => q.scalarEq .null
  | some (.arr xs) => xs.any (fun x => x.scalarEq q)
  | some v => v.scalarEq q

/-- Stage `$match` with one equality condition `{ field: q }`. -/
def matchStage (field : String) (q : Value) (docs : List Doc) : List Doc :=
  docs.filter (fun d => fieldEq (d.get? field) q)

/-- The join condition of `$lookup`: the foreign document's field equals the local value, or
one of its elements when the local value is an array; a missing local field is `null`. -/
def lookupMatches (loc : Option Value) (foreignDoc : Doc) (foreignField : String) : Bool :=
  match loc with
  | none => fieldEq (foreignDoc.get? foreignField) .null
  | some (.arr xs) => xs.any (fun x => fieldEq (foreignDoc.get? foreignField) x)
  | some v => fieldEq (foreignDoc.get? foreignField) v

/-- Stage `$lookup` with `from`, `localField`, `foreignField`, `as` and an optional inner
`pipeline`: every input document receives, in field `as`, the array of the documents of the
foreign collection that satisfy the join condition, taken in the order of the foreign
collection and passed through the inner pipeline. -/
def lookupStage (foreignColl : List Doc) (localField foreignField as : String)
    (pipeline : List Doc → List Doc) (docs : List Doc) : List Doc :=
  docs.map (fun d =>
    d.set as (.arr ((pipeline (foreignColl.filter
      (fun f => lookupMatches (d.get? localField) f foreignField))).map Value.doc)))

/-- The fields kept by an inclusion `$project`: the listed fields that the document has, in
the document's order, and `_id` unless the stage says `_id: 0`. -/
def projectFields (excludeId : Bool) (fields : List String) (d : Doc) : Doc :=
  d.filter (fun kv => if kv.1 == "_id" then !excludeId else fields.contains kv.1)

/-- Array operator `$first`: the first element of an array; `none` (no value) for the empty
array and for an operand that is not an array. -/
def firstOf (v : Option Value) : Option Value :=
  match v with
  | some (.arr (x :: _)) => some x
  | _ => none

/-- Stage `$set` / `$addFields` with one field: the field takes the computed value, and is
dropped when the expression yields no value. -/
def setStage (field : String) (expr : Doc → Option Value) (docs : List Doc) : List Doc :=
  docs.map (fun d =>
    match expr d with
    | some v => d.set field v
    | none => d.unset field)

/-- Operator `$size` on a field: the length of the array held there (0 when the field holds
no array; every use below applies it to the output of `$lookup`). -/
def sizeOf (v : Option Value) : Int :=
  match v with
  | some (.arr xs) => xs.length
  | _ => 0

/-- The path expression `"$a.b"` over an array field `a` of documents: the values of `b` of
the elements that have it. -/
def pathThroughArray (v : Option Value) (b : String) : List Value :=
  match v with
  | some (.arr xs) => xs.filterMap (fun x =>
      match x with
      | .doc d => Doc.get? d b
      | _ => none)
  | _ => []

/-- Operator `$in: [x, array]`. -/
def inArray (x : Value) (xs : List Value) : Bool :=
  xs.any (fun y => y.scalarEq x)

/-- How an optional identifier is sent to the query engine: `undefined` is serialized as
`null`. -/
def idValue (i : Option ObjectId) : Value :=
  match i with
  | some o => .oid o
  | none => .null

/-! ## Records -/

/-- Modelled from the spec: the User model (`models/user.models.js`): identity, credential
hash, avatar reference, nullable session artifact and ordered watch-history list. -/
structure User where
  _id : ObjectId
  username : String
  email : String
  password : String
  avatar : String
  refreshToken : Option String
  watchHistory : List ObjectId
  deriving DecidableEq, Repr

/-- Modelled from the spec: the Video model (`models/video.models.js`). -/
structure Video where
  _id : ObjectId
  videoFile : String
  thumbnail : String
  title : String
  description : String
  duration : Nat
  isPublished : Bool
  owner : ObjectId
  deriving DecidableEq, Repr

/-- Modelled from the spec: the Tweet model (`models/tweet.models.js`). -/
structure Tweet where
  _id : ObjectId
  content : String
  owner : ObjectId
  deriving DecidableEq, Repr

/-- Modelled from the spec: a row of the Subscription relation: `subscriber` follows
`channel`. -/
structure Subscription where
  _id : ObjectId
  subscriber : ObjectId
  channel : ObjectId
  deriving DecidableEq, Repr

/-- The stored document of a user. -/
def User.toDoc (u : User) : Doc :=
  [("_id", .oid u._id), ("username", .str u.username), ("email", .str u.email),
   ("password", .str u.password), ("avatar", .str u.avatar)] ++
  (match u.refreshToken with
   | some t => [("refreshToken", .str t)]
   | none => []) ++
  [("watchHistory", .arr (u.watchHistory.map Value.oid))]

/-- The stored document of a video. -/
def Video.toDoc (v : Video) : Doc :=
  [("_id", .oid v._id), ("videoFile", .str v.videoFile), ("thumbnail", .str v.thumbnail),
   ("title", .str v.title), ("description", .str v.description),
   ("duration", .num v.duration), ("isPublished", .bool v.isPublished),
   ("owner", .oid v.owner)]

/-- The stored document of a tweet. -/
def Tweet.toDoc (t : Tweet) : Doc :=
  [("_id", .oid t._id), ("content", .str t.content), ("owner", .oid t.owner)]

/-- The stored document of a subscription row. -/
def Subscription.toDoc (s : Subscription) : Doc :=
  [("_id", .oid s._id), ("subscriber", .oid s.subscriber), ("channel", .oid s.channel)]

/-- The persistence layer: four collections, each in storage order. -/
structure Database where
  users : List User
  videos : List Video
  tweets : List Tweet
  subscriptions : List Subscription
  deriving DecidableEq, Repr

/-! ## Errors, responses and the world -/

/-- Modelled from the spec: `ApiError` (`utils/ApiError.js`) carries a status and a message.
The other constructors are the errors raised by the runtime or a library: a CastError of
`findById`, a BSONError of the ObjectId constructors, a TypeError, a ReferenceError, a
ValidationError of `create`, a file-system error and a rejection by the query engine. -/
inductive Err where
  | apiError (statusCode : Nat) (message : String)
  | castError
  | bsonError
  | typeError
  | referenceError
  | validationError
  | fsError
  | queryError
  deriving DecidableEq, Repr

/-- Modelled from the spec: the envelope of `utils/ApiResponse.js`, built as
`new ApiResponse(statusCode, message, data)`. -/
structure ApiResponse where
  statusCode : Nat
  message : String
  data : Option Value
  deriving Repr

/-- What a handler sends: `res.status(status).json(body)`. -/
structure Response where
  status : Nat
  body : ApiResponse
  deriving Repr

/-- A call on the persistence interface, as recorded in the log. -/
inductive DbOp where
  | findById (coll : String) (id : String)
  | find (coll : String)
  | aggregate (coll : String)
  | create (coll : String)
  | save (coll : String) (id : ObjectId)
  | deleteOne (coll : String) (id : ObjectId)
  deriving DecidableEq, Repr

/-- What `cloudinary.uploader.upload` resolves to, as far as the handlers read it. -/
structure UploadResult where
  url : String
  duration : Nat
  deriving DecidableEq, Repr

/-- The media store: the URLs of the stored assets, the URLs whose deletion the store
rejects, and what an upload of a local path resolves to (a path not listed is rejected). -/
structure Cloudinary where
  assets : List String
  rejectsDestroy : List String
  uploads : List (String × UploadResult)
  deriving DecidableEq, Repr

/-- Everything a handler can read or change. -/
structure World where
  db : Database
  cloud : Cloudinary
  disk : List String
  nextId : ObjectId
  log : List DbOp
  deriving DecidableEq, Repr

/-- The outcome of a handler: what it threw or sent, and the world it leaves. -/
abbrev Outcome := Except Err Response × World

/-- The world with one more persistence call in its log. -/
def World.logged (w : World) (op : DbOp) : World :=
  { w with log := w.log ++ [op] }

/-- Method `equals` of an ObjectId against a possibly absent identifier: value equality,
false for `undefined`. -/
def equals (a : ObjectId) (b : Option ObjectId) : Bool :=
  match b with
  | some x => a == x
  | none => false

/-- The test `field === undefined || field === null || field?.trim() === ""`. -/
def isBlank (field : Option String) : Bool :=
  match field with
  | none => true
  | some s => (trim s).data.isEmpty

/-! ## utils/cloudinary.js -/

/-- Function `upload`: `null` for an empty path; otherwise the file is sent to the store and
removed from the disk, and the result is the store's answer or `null` when the store
rejects.  Removing a file that is not on the disk throws. -/
def upload (filePath : String) (w : World) : Except Err (Option UploadResult) × World :=
  if !truthy filePath then (.ok none, w)
  else if !w.disk.contains filePath then (.error .fsError, w)
  else
    match w.cloud.uploads.lookup filePath with
    | some r =>
      (.ok (some r), { w with cloud := { w.cloud with assets := w.cloud.assets ++ [r.url] },
                              disk := w.disk.erase filePath })
    | none => (.ok none, { w with disk := w.disk.erase filePath })

/-- Function `deleteFromUrl` (one parameter): the asset is destroyed in the store; when the
store rejects, the `catch` block evaluates `new ApiError(...)`, a name the module does not
import, so a ReferenceError is thrown. -/
def deleteFromUrl (publicUrl : String) (w : World) : Except Err Unit × World :=
  if w.cloud.rejectsDestroy.contains publicUrl then (.error .referenceError, w)
  else (.ok (), { w with cloud := { w.cloud with
                    assets := w.cloud.assets.filter (fun a => a != publicUrl) } })

/-! ## Model methods -/

/-- Call `Tweet.findById(id)`: the identifier string is cast (a CastError when it is not an
identifier), and the first tweet with that `_id` is returned, or `null`. -/
def Tweet.findById (id : String) (w : World) : Except Err (Option Tweet) × World :=
  match createFromHexString id with
  | none => (.error .castError, w.logged (.findById "tweets" id))
  | some i => (.ok (w.db.tweets.find? (fun t => t._id == i)), w.logged (.findById "tweets" id))

/-- Call `Video.findById(id)`. -/
def Video.findById (id : String) (w : World) : Except Err (Option Video) × World :=
  match createFromHexString id with
  | none => (.error .castError, w.logged (.findById "videos" id))
  | some i => (.ok (w.db.videos.find? (fun v => v._id == i)), w.logged (.findById "videos" id))

/-- Method `save` of a tweet document: the stored tweet with the same `_id` is replaced. -/
def Tweet.save (t : Tweet) (w : World) : World :=
  { w with db := { w.db with tweets := w.db.tweets.map (fun x => if x._id == t._id then t else x) },
           log := w.log ++ [.save "tweets" t._id] }

/-- Method `save` of a video document. -/
def Video.save (v : Video) (w : World) : World :=
  { w with db := { w.db with videos := w.db.videos.map (fun x => if x._id == v._id then v else x) },
           log := w.log ++ [.save "videos" v._id] }

/-- Call `Tweet.deleteOne({ _id })`: the first tweet with that `_id` is removed; the result
is `deletedCount` (the operation is acknowledged). -/
def Tweet.deleteOne (id : ObjectId) (w : World) : Nat × World :=
  (if w.db.tweets.any (fun t => t._id == id) then 1 else 0,
   { w with db := { w.db with tweets := w.db.tweets.eraseP (fun t => t._id == id) },
            log := w.log ++ [.deleteOne "tweets" id] })

/-- Call `Video.deleteOne({ _id })`. -/
def Video.deleteOne (id : ObjectId) (w : World) : Nat × World :=
  (if w.db.videos.any (fun v => v._id == id) then 1 else 0,
   { w with db := { w.db with videos := w.db.videos.eraseP (fun v => v._id == id) },
            log := w.log ++ [.deleteOne "videos" id] })

/-- Call `Tweet.create({ content, owner })`: a tweet with a fresh `_id` is stored; a missing
owner fails validation (every tweet has exactly one owner). -/
def Tweet.create (content : String) (owner : Option ObjectId) (w : World) :
    Except Err Tweet × World :=
  match owner with
  | none => (.error .validationError, w.logged (.create "tweets"))
  | some o =>
    let t : Tweet := { _id := w.nextId, content := content, owner := o }
    (.ok t, { w with db := { w.db with tweets := w.db.tweets ++ [t] },
                     nextId := w.nextId + 1,
                     log := w.log ++ [.create "tweets"] })

/-! ## controllers/tweet.controller.js -/

/-- The `$project` of the owner lookup of `getUserTweets`: `_id: 0` and three fields. -/
def tweetOwnerProject (users : List Doc) : List Doc :=
  users.map (projectFields true ["username", "email", "avatar"])

/-- Handler `createTweet`; `content` is `req.body.content` (`none` when undefined). -/
def createTweet (user : Option ObjectId) (content : Option String) (w : World) : Outcome :=
  match content with
  | none => (.error .typeError, w)
  | some c =>
    if (trim c).data.length == 0 then (.error (.apiError 400 "tweet cannot be empty"), w)
    else
      match Tweet.create c user w with
      | (.error e, w1) => (.error e, w1)
      | (.ok newTweet, w1) =>
        (.ok ⟨201, ⟨201, "tweet created successfully", some (.doc newTweet.toDoc)⟩⟩, w1)

/-- Handler `getUserTweets`; `userId` is `req.params.userId`. -/
def getUserTweets (userId : String) (w : World) : Outcome :=
  if !truthy (trim userId) then (.error (.apiError 400 "userId cannot be empty"), w)
  else
    match createFromHexString (trim userId) with
    | none => (.error .bsonError, w)
    | some owner =>
      let myTweets :=
        w.db.tweets.map Tweet.toDoc
          |> matchStage "owner" (.oid owner)
          |> lookupStage (w.db.users.map User.toDoc) "owner" "_id" "owner" tweetOwnerProject
          |> setStage "owner" (fun d => firstOf (d.get? "owner"))
      if myTweets.length == 0 then
        (.error (.apiError 500 "could not fetch tweets"), w.logged (.aggregate "tweets"))
      else
        (.ok ⟨200, ⟨200, "tweets fetched successfully", some (.arr (myTweets.map Value.doc))⟩⟩,
         w.logged (.aggregate "tweets"))

/-- Handler `updateTweet`; `tweetId` is `req.params.tweetId`, `newContent` is
`req.body.newContent` (`none` when undefined). -/
def updateTweet (user : Option ObjectId) (tweetId : String) (newContent : Option String)
    (w : World) : Outcome :=
  match Tweet.findById tweetId w with
  | (.error e, w1) => (.error e, w1)
  | (.ok none, w1) => (.error (.apiError 400 "cannot find tweet"), w1)
  | (.ok (some tweet), w1) =>
    if !equals tweet.owner user then
      (.error (.apiError 400 "current user is not the owner of this tweet"), w1)
    else
      match newContent with
      | none => (.error .typeError, w1)
      | some c =>
        if (trim c).data.length == 0 then (.error (.apiError 400 "tweet cannot be empty"), w1)
        else
          let updatedTweet : Tweet := { tweet with content := trim c }
          (.ok ⟨201, ⟨201, "tweet updated successfully", some (.doc updatedTweet.toDoc)⟩⟩,
           Tweet.save updatedTweet w1)

/-- Handler `deleteTweet`. -/
def deleteTweet (user : Option ObjectId) (tweetId : String) (w : World) : Outcome :=
  match Tweet.findById tweetId w with
  | (.error e, w1) => (.error e, w1)
  | (.ok none, w1) => (.error (.apiError 400 "cannot find tweet"), w1)
  | (.ok (some tweet), w1) =>
    if !equals tweet.owner user then
      (.error (.apiError 400 "current user is not the owner of this tweet"), w1)
    else
      match Tweet.deleteOne tweet._id w1 with
      | (deletedCount, w2) =>
        if deletedCount == 0 then (.error (.apiError 500 "tweet cannot be deleted"), w2)
        else (.ok ⟨200, ⟨200, "tweet deleted successfully", none⟩⟩, w2)

/-! ## controllers/video.controller.js -/

/-- The filter object handed to `Video.find`. -/
structure VideoFilter where
  owner : Option ObjectId
  regex : Option String
  deriving DecidableEq, Repr

/-- The query string of `getAllVideos` (`req.query`); numeric parameters are given as the
integers they coerce to. -/
structure VideoQuery where
  page : Option Int
  limit : Option Int
  query : Option String
  sortBy : Option String
  sortType : Option String
  userId : Option String
  deriving DecidableEq, Repr

/-- The owner entry of the filter of `getAllVideos` (lines 21-23): guarded on the trimmed
string, converted from the string as received. -/
def ownerFilter (userId : Option String) : Except Err (Option ObjectId) :=
  match userId with
  | none => .ok none
  | some u =>
    if truthy u && isValidObjectId (trim u) then
      match createFromHexString u with
      | some o => .ok (some o)
      | none => .error .bsonError
    else .ok none

/-- The `$or` entry of the filter of `getAllVideos` (lines 24-29). -/
def regexFilter (query : Option String) : Option String :=
  match query with
  | none => none
  | some q => if truthy q && (trim q).data.length != 0 then some q else none

/-- The sort object of `getAllVideos` (lines 30-33). -/
def sortSpec (sortBy sortType : Option String) : Option (String × String) :=
  match sortBy with
  | none => none
  | some k => if truthy k && (trim k).data.length != 0 then some (k, sortType.getD "asc") else none

/-- Handler `getAllVideos`.  The query `Video.find(filter).sort(sort).skip(n).limit(m)` is run
by `find`, the query engine, which yields the rows or rejects; the rows are an array, so the
test `!videos` on line 39 never fires. -/
def getAllVideos
    (find : VideoFilter → Option (String × String) → Int → Int → Database → Except Err (List Video))
    (q : VideoQuery) (w : World) : Outcome :=
  match ownerFilter q.userId with
  | .error e => (.error e, w)
  | .ok owner =>
    let filter : VideoFilter := { owner := owner, regex := regexFilter q.query }
    let sort := sortSpec q.sortBy q.sortType
    match find filter sort ((q.page.getD 1 - 1) * q.limit.getD 10) (q.limit.getD 10) w.db with
    | .error e => (.error e, w.logged (.find "videos"))
    | .ok videos =>
      (.ok ⟨200, ⟨200,
          if videos.length == 0 then "no videos found for this search"
          else "fetched all videos successfully",
          some (.arr (videos.map (fun v => Value.doc v.toDoc)))⟩⟩,
       w.logged (.find "videos"))

/-- The `$project` of the owner lookup of `getVideoById` and `getWatchHistory`: three fields,
`_id` not excluded. -/
def videoOwnerProject (users : List Doc) : List Doc :=
  users.map (projectFields false ["username", "email", "avatar"])

/-- Handler `getVideoById`. -/
def getVideoById (videoId : String) (w : World) : Outcome :=
  if !isValidObjectId videoId then (.error (.apiError 400 "videoID is invalid"), w)
  else
    match createFromHexString videoId with
    | none => (.error .bsonError, w)
    | some id =>
      let video :=
        w.db.videos.map Video.toDoc
          |> matchStage "_id" (.oid id)
          |> lookupStage (w.db.users.map User.toDoc) "owner" "_id" "owner" videoOwnerProject
          |> setStage "owner" (fun d => firstOf (d.get? "owner"))
      match video with
      | [] => (.error (.apiError 500 "error while fetching video"), w.logged (.aggregate "videos"))
      | v0 :: _ =>
        (.ok ⟨200, ⟨200, "video fetched successfully", some (.doc v0)⟩⟩,
         w.logged (.aggregate "videos"))

/-- Handler `updateVideo`; `title` and `description` come from `req.body`, `newThumbnailPath`
is `req.file?.path`. -/
def updateVideo (user : Option ObjectId) (videoId : String)
    (title description newThumbnailPath : Option String) (w : World) : Outcome :=
  if !isValidObjectId videoId then (.error (.apiError 400 "videoID is invalid"), w)
  else
    match Video.findById videoId w with
    | (.error e, w1) => (.error e, w1)
    | (.ok none, w1) => (.error (.apiError 400 "video doesn't exists"), w1)
    | (.ok (some videoToBeUpdated), w1) =>
      if !equals videoToBeUpdated.owner user then
        (.error (.apiError 401 "user is not authorized to update this video"), w1)
      else if isBlank title && isBlank description && isBlank newThumbnailPath then
        (.error (.apiError 400 "atleast one field is required for updation"), w1)
      else
        let withThumbnail : Except Err Video × World :=
          match newThumbnailPath with
          | none => (.ok videoToBeUpdated, w1)
          | some path =>
            if truthy path && w1.disk.contains path then
              match deleteFromUrl videoToBeUpdated.thumbnail w1 with
              | (.error e, w2) => (.error e, w2)
              | (.ok _, w2) =>
                match upload path w2 with
                | (.error e, w3) => (.error e, w3)
                | (.ok none, w3) =>
                  (.error (.apiError 500 "error uploading thumbnail to cloudinary"), w3)
                | (.ok (some uploadedThumbnail), w3) =>
                  if !truthy uploadedThumbnail.url then
                    (.error (.apiError 500 "error uploading thumbnail to cloudinary"), w3)
                  else (.ok { videoToBeUpdated with thumbnail := uploadedThumbnail.url }, w3)
            else (.ok videoToBeUpdated, w1)
        match withThumbnail with
        | (.error e, w4) => (.error e, w4)
        | (.ok v1, w4) =>
          let v2 : Video := if isBlank title then v1 else { v1 with title := title.getD "" }
          let v3 : Video :=
            if isBlank description then v2 else { v2 with description := description.getD "" }
          (.ok ⟨201, ⟨201, "video updated successfully", some (.doc v3.toDoc)⟩⟩,
           Video.save v3 w4)

/-- Handler `deleteVideo`. -/
def deleteVideo (user : Option ObjectId) (videoId : String) (w : World) : Outcome :=
  if !isValidObjectId videoId then (.error (.apiError 400 "videoID is invalid"), w)
  else
    match Video.findById videoId w with
    | (.error e, w1) => (.error e, w1)
    | (.ok none, w1) => (.error (.apiError 400 "cannot find video to delete"), w1)
    | (.ok (some videoToDelete), w1) =>
      if !equals videoToDelete.owner user then
        (.error (.apiError 401 "user is not authorized to delete this video"), w1)
      else
        match deleteFromUrl videoToDelete.videoFile w1 with
        | (.error e, w2) => (.error e, w2)
        | (.ok _, w2) =>
          match deleteFromUrl videoToDelete.thumbnail w2 with
          | (.error e, w3) => (.error e, w3)
          | (.ok _, w3) =>
            match Video.deleteOne videoToDelete._id w3 with
            | (deletedCount, w4) =>
              if deletedCount == 0 then
                (.error (.apiError 500 "video cannot be deleted. Please try again !!"), w4)
              else (.ok ⟨200, ⟨200, "video deleted successfully", none⟩⟩, w4)

/-- Handler `togglePublishStatus`. -/
def togglePublishStatus (user : Option ObjectId) (videoId : String) (w : World) : Outcome :=
  if !isValidObjectId videoId then (.error (.apiError 400 "videoID is invalid"), w)
  else
    match Video.findById videoId w with
    | (.error e, w1) => (.error e, w1)
    | (.ok none, w1) => (.error (.apiError 400 "cannot find video"), w1)
    | (.ok (some video), w1) =>
      if !equals video.owner user then
        (.error (.apiError 401 "user is not authorized to change publish status"), w1)
      else
        let updatedVideo : Video := { video with isPublished := !video.isPublished }
        (.ok ⟨201, ⟨201, "publish status changed successfully", some (.doc updatedVideo.toDoc)⟩⟩,
         Video.save updatedVideo w1)

/-! ## controllers/user.controller.js -/

/-- The `$project` stage of `getUserChannelProfile`; `user` is `req.user?._id`. -/
def channelProject (user : Option ObjectId) (d : Doc) : Doc :=
  projectFields true ["username", "avatar", "email"] d ++
  [("subscribers", .num (sizeOf (d.get? "subscribers"))),
   ("subscribedTo", .num (sizeOf (d.get? "subscribedTo"))),
   ("isSubscribed",
     .bool (inArray (idValue user) (pathThroughArray (d.get? "subscribers") "subscriber")))]

/-- Handler `getUserChannelProfile`; `username` is `req.params?.username`. -/
def getUserChannelProfile (user : Option ObjectId) (username : Option String) (w : World) :
    Outcome :=
  match username with
  | none => (.error (.apiError 400 "username is missing"), w)
  | some name =>
    if !truthy name then (.error (.apiError 400 "username is missing"), w)
    else
      let channel :=
        w.db.users.map User.toDoc
          |> matchStage "username" (.str name)
          |> lookupStage (w.db.subscriptions.map Subscription.toDoc) "_id" "channel"
               "subscribers" id
          |> lookupStage (w.db.subscriptions.map Subscription.toDoc) "_id" "subscriber"
               "subscribedTo" id
          |> List.map (channelProject user)
      match channel with
      | [] => (.error (.apiError 404 "channel does not exists"), w.logged (.aggregate "users"))
      | c0 :: _ =>
        (.ok ⟨200, ⟨200, "channel details fetched successfully", some (.doc c0)⟩⟩,
         w.logged (.aggregate "users"))

/-- The inner pipeline of the watch-history lookup: owner lookup, then `$addFields`. -/
def watchHistoryPipeline (users : List Doc) (videos : List Doc) : List Doc :=
  videos
    |> lookupStage users "owner" "_id" "owner" videoOwnerProject
    |> setStage "owner" (fun d => firstOf (d.get? "owner"))

/-- Handler `getWatchHistory`; reading `user[0].watchHistory` of an empty result throws a
TypeError. -/
def getWatchHistory (user : Option ObjectId) (w : World) : Outcome :=
  let result :=
    w.db.users.map User.toDoc
      |> matchStage "_id" (idValue user)
      |> lookupStage (w.db.videos.map Video.toDoc) "watchHistory" "_id" "watchHistory"
           (watchHistoryPipeline (w.db.users.map User.toDoc))
  match result with
  | [] => (.error .typeError, w.logged (.aggregate "users"))
  | u0 :: _ =>
    (.ok ⟨200, ⟨200, "Watch history fetched successfully", u0.get? "watchHistory"⟩⟩,
     w.logged (.aggregate "users"))

/-! ## Ownership-gated mutations, as one family -/

/-- A call of one of the five owner-only handlers, with its arguments. -/
inductive Mutation where
  | updateTweet (tweetId : String) (newContent : Option String)
  | deleteTweet (tweetId : String)
  | updateVideo (videoId : String) (title description newThumbnailPath : Option String)
  | deleteVideo (videoId : String)
  | togglePublishStatus (videoId : String)
  deriving DecidableEq, Repr

/-- Running the call for the acting identity `user` (`req.user?._id`). -/
def Mutation.run (user : Option ObjectId) : Mutation → World → Outcome
  | .updateTweet tweetId newContent, w => Fullstack.updateTweet user tweetId newContent w
  | .deleteTweet tweetId, w => Fullstack.deleteTweet user tweetId w
  | .updateVideo videoId title description path, w =>
    Fullstack.updateVideo user videoId title description path w
  | .deleteVideo videoId, w => Fullstack.deleteVideo user videoId w
  | .togglePublishStatus videoId, w => Fullstack.togglePublishStatus user videoId w

/-- The stored owner of the record the call addresses: the identifier string denotes an
identifier and a record with that `_id` is stored. -/
def Mutation.storedOwner (w : World) : Mutation → Option ObjectId
  | .updateTweet tweetId _ | .deleteTweet tweetId =>
    (createFromHexString tweetId).bind (fun i =>
      (w.db.tweets.find? (fun t => t._id == i)).map (fun t => t.owner))
  | .updateVideo videoId _ _ _ | .deleteVideo videoId | .togglePublishStatus videoId =>
    (createFromHexString videoId).bind (fun i =>
      (w.db.videos.find? (fun v => v._id == i)).map (fun v => v.owner))

/-- The error each handler throws when the acting identity is not the owner. -/
def Mutation.notOwnerError : Mutation → Err
  | .updateTweet _ _ | .deleteTweet _ =>
    .apiError 400 "current user is not the owner of this tweet"
  | .updateVideo _ _ _ _ => .apiError 401 "user is not authorized to update this video"
  | .deleteVideo _ => .apiError 401 "user is not authorized to delete this video"
  | .togglePublishStatus _ => .apiError 401 "user is not authorized to change publish status"

/-- Whether an outcome is a thrown error. -/
def Outcome.failed (o : Outcome) : Bool :=
  match o.1 with
  | .error _ => true
  | .ok _ => false

/-- The error of an outcome, if it is one. -/
def Outcome.error? (o : Outcome) : Option Err :=
  match o.1 with
  | .error e => some e
  | .ok _ => none

/-- The response of an outcome, if it is one. -/
def Outcome.response? (o : Outcome) : Option Response :=
  match o.1 with
  | .error _ => none
  | .ok r => some r

/-! ## Views named by the specification -/

/-- The owner object joined into a video: `_id` and the three projected fields. -/
def videoOwnerView (u : User) : Doc :=
  [("_id", .oid u._id), ("username", .str u.username), ("email", .str u.email),
   ("avatar", .str u.avatar)]

/-- The enriched video: the stored document with `owner` replaced by the view of the first
user whose `_id` is the owner reference, and without `owner` when there is no such user. -/
def enrichedVideo (db : Database) (v : Video) : Doc :=
  [("_id", .oid v._id), ("videoFile", .str v.videoFile), ("thumbnail", .str v.thumbnail),
   ("title", .str v.title), ("description", .str v.description),
   ("duration", .num v.duration), ("isPublished", .bool v.isPublished)] ++
  (match db.users.find? (fun u => u._id == v.owner) with
   | some u => [("owner", .doc (videoOwnerView u))]
   | none => [])


/-- Whether the requesting identity follows the channel: an identity is present and some
Subscription row has it as subscriber and the channel as channel. -/
def isSubscribedBy (db : Database) (user : Option ObjectId) (u : User) : Bool :=
  match user with
  | some i => db.subscriptions.any (fun s => s.subscriber == i && s.channel == u._id)
  | none => false

/-- The flattened channel profile of user `u` for the requesting identity `user`. -/
def channelProfile (db : Database) (user : Option ObjectId) (u : User) : Doc :=
  [("username", .str u.username), ("email", .str u.email), ("avatar", .str u.avatar),
   ("subscribers", .num (db.subscriptions.countP (fun s => s.channel == u._id))),
   ("subscribedTo", .num (db.subscriptions.countP (fun s => s.subscriber == u._id))),
   ("isSubscribed", .bool (isSubscribedBy db user u))]


/-- The owner object joined into a tweet: the three projected fields. -/
def tweetOwnerView (u : User) : Doc :=
  [("username", .str u.username), ("email", .str u.email), ("avatar", .str u.avatar)]

/-- The enriched tweet: the stored document with `owner` replaced by the view of the first
user whose `_id` is the owner reference, and without `owner` when there is no such user. -/
def enrichedTweet (db : Database) (t : Tweet) : Doc :=
  [("_id", .oid t._id), ("content", .str t.content)] ++
  (match db.users.find? (fun u => u._id == t.owner) with
   | some u => [("owner", .doc (tweetOwnerView u))]
   | none => [])

/-- The keys of the `owner` object of a document, when `owner` is an object. -/
def ownerKeys (d : Doc) : Option (List String) :=
  match d.get? "owner" with
  | some (.doc o) => some (Doc.keys o)
  | _ => none

/-- The documents of a response whose data is an array of documents or a single document. -/
def dataDocs (o : Outcome) : List Doc :=
  match o.1 with
  | .ok r =>
    (match r.body.data with
     | some (.arr xs) => xs.filterMap (fun x =>
         match x with
         | .doc d => some d
         | _ => none)
     | some (.doc d) => [d]
     | _ => [])
  | .error _ => []

/-- The `_id`s of a list of documents, in order. -/
def docIds (ds : List Doc) : List ObjectId :=
  ds.filterMap (fun d =>
    match d.get? "_id" with
    | some (.oid i) => some i
    | _ => none)

/-- A query engine for the examples: it filters on the owner entry only, rejects a negative
skip and treats limit 0 as no limit. -/
def ownerOnlyFind (f : VideoFilter) (_sort : Option (String × String)) (skip limit : Int)
    (db : Database) : Except Err (List Video) :=
  if skip < 0 then .error .queryError
  else
    let rows := (db.videos.filter (fun v =>
      match f.owner with
      | some o => v.owner == o
      | none => true)).drop skip.toNat
    .ok (if limit = 0 then rows else rows.take limit.natAbs)

/-- The content of a tweet is non-empty after trimming. -/
def Tweet.contentNonEmpty (t : Tweet) : Bool := !(trim t.content).data.isEmpty

/-! ## Sample data -/

/-- A user with an empty watch history and no session. -/
def alice : User :=
  { _id := 1, username := "alice", email := "alice@example.org", password := "hash-a",
    avatar := "http://media/alice.png", refreshToken := none, watchHistory := [] }

/-- A user with a session and a watch history that lists video 17 before video 16. -/
def bob : User :=
  { _id := 2, username := "bob", email := "bob@example.org", password := "hash-b",
    avatar := "http://media/bob.png", refreshToken := some "token-b", watchHistory := [17, 16] }

/-- A video of alice, `_id` 16 (hexadecimal 10). -/
def video16 : Video :=
  { _id := 16, videoFile := "http://media/v16.mp4", thumbnail := "http://media/t16.png",
    title := "first", description := "the first video", duration := 30, isPublished := true,
    owner := 1 }

/-- A video of bob, `_id` 17 (hexadecimal 11). -/
def video17 : Video :=
  { _id := 17, videoFile := "http://media/v17.mp4", thumbnail := "http://media/t17.png",
    title := "second", description := "the second video", duration := 45, isPublished := false,
    owner := 2 }

/-- A tweet of alice, `_id` 32 (hexadecimal 20). -/
def tweet32 : Tweet := { _id := 32, content := "hello", owner := 1 }

/-- A database with two users, two videos, one tweet and two subscription rows, both
targeting alice. -/
def sampleDb : Database :=
  { users := [alice, bob], videos := [video16, video17], tweets := [tweet32],
    subscriptions := [{ _id := 48, subscriber := 2, channel := 1 },
                      { _id := 49, subscriber := 3, channel := 1 }] }

/-- A world over `sampleDb` whose media store holds the four assets and rejects the deletion
of the thumbnail of video 16. -/
def sampleWorld : World :=
  { db := sampleDb,
    cloud := { assets := ["http://media/v16.mp4", "http://media/t16.png",
                          "http://media/v17.mp4", "http://media/t17.png"],
               rejectsDestroy := ["http://media/t16.png"], uploads := [] },
    disk := [], nextId := 64, log := [] }

/-- A world with an empty database. -/
def emptyWorld : World :=
  { db := { users := [], videos := [], tweets := [], subscriptions := [] },
    cloud := { assets := [], rejectsDestroy := [], uploads := [] },
    disk := [], nextId := 1, log := [] }

/-! ## Basic facts -/

@[simp] theorem logged_db (w : World) (op : DbOp) : (w.logged op).db = w.db := rfl

@[simp] theorem logged_cloud (w : World) (op : DbOp) : (w.logged op).cloud = w.cloud := rfl

@[simp] theorem logged_disk (w : World) (op : DbOp) : (w.logged op).disk = w.disk := rfl

@[simp] theorem logged_log (w : World) (op : DbOp) : (w.logged op).log = w.log ++ [op] := rfl

theorem equals_eq_true_iff (a : ObjectId) (b : Option ObjectId) :
    equals a b = true ↔ b = some a := by
  cases b with
  | none => simp [equals]
  | some x =>
    simp only [equals, beq_iff_eq, Option.some.injEq]
    exact eq_comm

theorem equals_eq_false_of_ne (a : ObjectId) (b : Option ObjectId) (h : b ≠ some a) :
    equals a b = false := by
  cases hb : equals a b with
  | false => rfl
  | true => exact absurd ((equals_eq_true_iff a b).1 hb) h

theorem isValid_of_createFromHexString {s : String} {i : ObjectId}
    (h : createFromHexString s = some i) : isValidObjectId s = true := by
  unfold createFromHexString at h
  by_cases hv : isValidObjectId s = true
  · exact hv
  · simp [hv] at h

theorem createFromHexString_eq_none {s : String} (h : isValidObjectId s = false) :
    createFromHexString s = none := by
  simp [createFromHexString, h]

/-- The ownership gate for one call: a stored record whose owner differs from the acting
identity makes the call throw its not-owner error after a single `findById`. -/
theorem run_not_owner (m : Mutation) (user : Option ObjectId) (w : World) (owner : ObjectId)
    (hstored : m.storedOwner w = some owner) (hne : user ≠ some owner) :
    ∃ op, m.run user w = (.error m.notOwnerError, w.logged op) := by
  have heq := equals_eq_false_of_ne owner user hne
  cases m with
  | updateTweet tweetId newContent =>
    simp only [Mutation.storedOwner, Option.bind_eq_some, Option.map_eq_some'] at hstored
    obtain ⟨i, hi, t, ht, hto⟩ := hstored
    subst hto
    exact ⟨.findById "tweets" tweetId, by simp [Mutation.run, updateTweet, Tweet.findById, hi, ht, heq,
      Mutation.notOwnerError]⟩
  | deleteTweet tweetId =>
    simp only [Mutation.storedOwner, Option.bind_eq_some, Option.map_eq_some'] at hstored
    obtain ⟨i, hi, t, ht, hto⟩ := hstored
    subst hto
    exact ⟨.findById "tweets" tweetId, by simp [Mutation.run, deleteTweet, Tweet.findById, hi, ht, heq,
      Mutation.notOwnerError]⟩
  | updateVideo videoId title description path =>
    simp only [Mutation.storedOwner, Option.bind_eq_some, Option.map_eq_some'] at hstored
    obtain ⟨i, hi, v, hv, hvo⟩ := hstored
    subst hvo
    exact ⟨.findById "videos" videoId, by simp [Mutation.run, updateVideo, Video.findById, hi, hv, heq,
      isValid_of_createFromHexString hi, Mutation.notOwnerError]⟩
  | deleteVideo videoId =>
    simp only [Mutation.storedOwner, Option.bind_eq_some, Option.map_eq_some'] at hstored
    obtain ⟨i, hi, v, hv, hvo⟩ := hstored
    subst hvo
    exact ⟨.findById "videos" videoId, by simp [Mutation.run, deleteVideo, Video.findById, hi, hv, heq,
      isValid_of_createFromHexString hi, Mutation.notOwnerError]⟩
  | togglePublishStatus videoId =>
    simp only [Mutation.storedOwner, Option.bind_eq_some, Option.map_eq_some'] at hstored
    obtain ⟨i, hi, v, hv, hvo⟩ := hstored
    subst hvo
    exact ⟨.findById "videos" videoId, by simp [Mutation.run, togglePublishStatus, Video.findById, hi, hv, heq,
      isValid_of_createFromHexString hi, Mutation.notOwnerError]⟩

theorem storedOwner_logged (m : Mutation) (w : World) (op : DbOp) :
    m.storedOwner (w.logged op) = m.storedOwner w := by
  cases m <;> rfl

/-! ## The pipelines, stage by stage -/

theorem filter_of_find?_none {α : Type} (p : α → Bool) (l : List α) (h : l.find? p = none) :
    l.filter p = [] := by
  rw [List.filter_eq_nil_iff]
  intro a ha
  have := List.find?_eq_none.1 h a ha
  simpa using this

theorem filter_of_find?_some {α : Type} (p : α → Bool) (l : List α) (a : α)
    (h : l.find? p = some a) : ∃ rest, l.filter p = a :: rest := by
  induction l with
  | nil => simp at h
  | cons x xs ih =>
    by_cases hx : p x = true
    · simp only [List.find?_cons, hx, Option.some.injEq] at h
      subst h
      exact ⟨xs.filter p, by simp [List.filter_cons, hx]⟩
    · have hx2 : p x = false := by simpa using hx
      simp only [List.find?_cons, hx2] at h
      obtain ⟨rest, hr⟩ := ih h
      exact ⟨rest, by simp [List.filter_cons, hx2, hr]⟩

theorem user_get_id (u : User) : u.toDoc.get? "_id" = some (.oid u._id) := by
  simp [User.toDoc, Doc.get?]

theorem user_get_username (u : User) : u.toDoc.get? "username" = some (.str u.username) := by
  simp [User.toDoc, Doc.get?]

theorem user_get_watchHistory (u : User) :
    u.toDoc.get? "watchHistory" = some (.arr (u.watchHistory.map Value.oid)) := by
  cases h : u.refreshToken <;> simp [User.toDoc, Doc.get?, h]

theorem user_project_keep_id (u : User) :
    projectFields false ["username", "email", "avatar"] u.toDoc = videoOwnerView u := by
  cases h : u.refreshToken <;> simp [User.toDoc, projectFields, h, videoOwnerView]

theorem users_join_on_id (users : List User) (o : ObjectId) :
    (users.map User.toDoc).filter (fun f => lookupMatches (some (.oid o)) f "_id") =
      (users.filter (fun u => u._id == o)).map User.toDoc := by
  rw [List.filter_map]
  rfl

theorem watchHistoryPipeline_eq (db : Database) (vs : List Video) :
    watchHistoryPipeline (db.users.map User.toDoc) (vs.map Video.toDoc) =
      vs.map (enrichedVideo db) := by
  simp only [watchHistoryPipeline, lookupStage, setStage, List.map_map]
  apply List.map_congr_left
  intro v _
  have hget : (Video.toDoc v).get? "owner" = some (.oid v.owner) := by
    simp [Video.toDoc, Doc.get?]
  simp only [Function.comp, hget, users_join_on_id]
  cases hf : db.users.find? (fun u => u._id == v.owner) with
  | none =>
    rw [filter_of_find?_none _ _ hf]
    simp [videoOwnerProject, Video.toDoc, Doc.set, Doc.get?, firstOf, Doc.unset, enrichedVideo, hf]
  | some u =>
    obtain ⟨rest, hr⟩ := filter_of_find?_some _ _ _ hf
    rw [hr]
    simp [videoOwnerProject, Video.toDoc, Doc.set, Doc.get?, firstOf, enrichedVideo, hf,
      user_project_keep_id]

theorem users_match_id (users : List User) (o : ObjectId) :
    matchStage "_id" (.oid o) (users.map User.toDoc) =
      (users.filter (fun u => u._id == o)).map User.toDoc := by
  rw [matchStage, List.filter_map]
  rfl

theorem users_match_username (users : List User) (name : String) :
    matchStage "username" (.str name) (users.map User.toDoc) =
      (users.filter (fun u => u.username == name)).map User.toDoc := by
  rw [matchStage, List.filter_map]
  rfl

theorem videos_join_on_history (videos : List Video) (history : List ObjectId) :
    (videos.map Video.toDoc).filter
        (fun f => lookupMatches (some (.arr (history.map Value.oid))) f "_id") =
      (videos.filter (fun v => decide (v._id ∈ history))).map Video.toDoc := by
  rw [List.filter_map]
  congr 1
  apply List.filter_congr
  intro v _
  rw [Bool.eq_iff_iff]
  simp [lookupMatches, Video.toDoc, Doc.get?, fieldEq, Value.scalarEq, List.any_map]

theorem subscribers_path (l : List Subscription) :
    pathThroughArray (some (.arr ((l.map Subscription.toDoc).map Value.doc))) "subscriber" =
      l.map (fun s => Value.oid s.subscriber) := by
  induction l with
  | nil => rfl
  | cons s rest ih =>
    show Value.oid s.subscriber ::
      pathThroughArray (some (.arr ((rest.map Subscription.toDoc).map Value.doc))) "subscriber" = _
    rw [ih]
    rfl

theorem isSubscribed_eq (db : Database) (user : Option ObjectId) (u : User) :
    inArray (idValue user)
        (pathThroughArray (some (.arr (((db.subscriptions.filter
          (fun s => s.channel == u._id)).map Subscription.toDoc).map Value.doc))) "subscriber") =
      isSubscribedBy db user u := by
  rw [subscribers_path, Bool.eq_iff_iff]
  cases user with
  | none => simp [inArray, idValue, Value.scalarEq, isSubscribedBy]
  | some i =>
    simp only [inArray, idValue, isSubscribedBy, List.any_eq_true, List.mem_map, List.mem_filter,
      beq_iff_eq, Bool.and_eq_true]
    constructor
    · rintro ⟨y, ⟨s, ⟨hs, hc⟩, rfl⟩, hi⟩
      exact ⟨s, hs, by simpa [Value.scalarEq] using hi, hc⟩
    · rintro ⟨s, hs, hi, hc⟩
      exact ⟨_, ⟨s, ⟨hs, hc⟩, rfl⟩, by simpa [Value.scalarEq] using hi⟩

theorem subscriptions_join_channel (subs : List Subscription) (u : User) :
    (subs.map Subscription.toDoc).filter
        (fun f => lookupMatches (some (.oid u._id)) f "channel") =
      (subs.filter (fun s => s.channel == u._id)).map Subscription.toDoc := by
  rw [List.filter_map]
  rfl

theorem subscriptions_join_subscriber (subs : List Subscription) (u : User) :
    (subs.map Subscription.toDoc).filter
        (fun f => lookupMatches (some (.oid u._id)) f "subscriber") =
      (subs.filter (fun s => s.subscriber == u._id)).map Subscription.toDoc := by
  rw [List.filter_map]
  rfl

theorem channel_stages (db : Database) (user : Option ObjectId) (u : User) :
    channelProject user
      ((u.toDoc.set "subscribers" (.arr (((db.subscriptions.filter
          (fun s => s.channel == u._id)).map Subscription.toDoc).map Value.doc))).set
        "subscribedTo" (.arr (((db.subscriptions.filter
          (fun s => s.subscriber == u._id)).map Subscription.toDoc).map Value.doc))) =
      channelProfile db user u := by
  have hsub := isSubscribed_eq db user u
  simp only [List.map_map] at hsub
  cases h : u.refreshToken <;>
    simp [User.toDoc, h, Doc.set, channelProject, projectFields, Doc.get?, sizeOf, channelProfile,
      hsub, List.countP_eq_length_filter]

theorem getUserChannelProfile_found (user : Option ObjectId) (name : String) (w : World)
    (u : User) (hname : truthy name = true)
    (hu : w.db.users.find? (fun x => x.username == name) = some u) :
    getUserChannelProfile user (some name) w =
      (.ok ⟨200, ⟨200, "channel details fetched successfully",
          some (.doc (channelProfile w.db user u))⟩⟩,
       w.logged (.aggregate "users")) := by
  obtain ⟨rest, hr⟩ := filter_of_find?_some _ _ _ hu
  have hid : ∀ v, (u.toDoc.set "subscribers" v).get? "_id" = some (.oid u._id) := by
    intro v
    cases h : u.refreshToken <;> simp [User.toDoc, h, Doc.set, Doc.get?]
  simp only [getUserChannelProfile, hname, users_match_username, hr, lookupStage, List.map_cons,
    user_get_id, subscriptions_join_channel, hid, subscriptions_join_subscriber, id,
    channel_stages]
  rfl

theorem getUserChannelProfile_missing (user : Option ObjectId) (name : String) (w : World)
    (hname : truthy name = true) (hno : ∀ u ∈ w.db.users, u.username ≠ name) :
    getUserChannelProfile user (some name) w =
      (.error (.apiError 404 "channel does not exists"), w.logged (.aggregate "users")) := by
  have hf : w.db.users.filter (fun x => x.username == name) = [] := by
    rw [List.filter_eq_nil_iff]
    intro a ha
    simpa using hno a ha
  simp [getUserChannelProfile, hname, users_match_username, hf, lookupStage]

theorem user_project_drop_id (u : User) :
    projectFields true ["username", "email", "avatar"] u.toDoc = tweetOwnerView u := by
  cases h : u.refreshToken <;> simp [User.toDoc, projectFields, h, tweetOwnerView]

theorem tweets_match_owner (tweets : List Tweet) (o : ObjectId) :
    matchStage "owner" (.oid o) (tweets.map Tweet.toDoc) =
      (tweets.filter (fun t => t.owner == o)).map Tweet.toDoc := by
  rw [matchStage, List.filter_map]
  rfl

theorem videos_match_id (videos : List Video) (i : ObjectId) :
    matchStage "_id" (.oid i) (videos.map Video.toDoc) =
      (videos.filter (fun v => v._id == i)).map Video.toDoc := by
  rw [matchStage, List.filter_map]
  rfl

theorem tweetPipeline_eq (db : Database) (ts : List Tweet) :
    setStage "owner" (fun d => firstOf (d.get? "owner"))
        (lookupStage (db.users.map User.toDoc) "owner" "_id" "owner" tweetOwnerProject
          (ts.map Tweet.toDoc)) =
      ts.map (enrichedTweet db) := by
  simp only [lookupStage, setStage, List.map_map]
  apply List.map_congr_left
  intro t _
  have hget : (Tweet.toDoc t).get? "owner" = some (.oid t.owner) := by
    simp [Tweet.toDoc, Doc.get?]
  simp only [Function.comp, hget, users_join_on_id]
  cases hf : db.users.find? (fun u => u._id == t.owner) with
  | none =>
    rw [filter_of_find?_none _ _ hf]
    simp [tweetOwnerProject, Tweet.toDoc, Doc.set, Doc.get?, firstOf, Doc.unset, enrichedTweet, hf]
  | some u =>
    obtain ⟨rest, hr⟩ := filter_of_find?_some _ _ _ hf
    rw [hr]
    simp [tweetOwnerProject, Tweet.toDoc, Doc.set, Doc.get?, firstOf, enrichedTweet, hf,
      user_project_drop_id]

theorem truthy_of_isValid {s : String} (h : isValidObjectId s = true) : truthy s = true := by
  simp only [isValidObjectId, Bool.and_eq_true, beq_iff_eq] at h
  cases hd : s.data with
  | nil => rw [hd] at h; simp at h
  | cons c cs => simp [truthy, hd]

theorem getUserTweets_eq (userId : String) (w : World) (owner : ObjectId)
    (hid : createFromHexString (trim userId) = some owner) :
    getUserTweets userId w =
      (if (w.db.tweets.filter (fun t => t.owner == owner)).length == 0 then
         .error (.apiError 500 "could not fetch tweets")
       else
         .ok ⟨200, ⟨200, "tweets fetched successfully",
           some (.arr (((w.db.tweets.filter (fun t => t.owner == owner)).map
             (enrichedTweet w.db)).map Value.doc))⟩⟩,
       w.logged (.aggregate "tweets")) := by
  have ht := truthy_of_isValid (isValid_of_createFromHexString hid)
  simp only [getUserTweets, ht, hid, tweets_match_owner, tweetPipeline_eq]
  by_cases hl : (w.db.tweets.filter (fun t => t.owner == owner)).length = 0
  · simp [hl]
  · simp [hl]

theorem getVideoById_found (videoId : String) (w : World) (i : ObjectId) (v : Video)
    (hid : createFromHexString videoId = some i)
    (hfind : w.db.videos.find? (fun x => x._id == i) = some v) :
    getVideoById videoId w =
      (.ok ⟨200, ⟨200, "video fetched successfully", some (.doc (enrichedVideo w.db v))⟩⟩,
       w.logged (.aggregate "videos")) := by
  obtain ⟨rest, hr⟩ := filter_of_find?_some _ _ _ hfind
  have hp := watchHistoryPipeline_eq w.db (v :: rest)
  simp only [watchHistoryPipeline] at hp
  simp only [getVideoById, isValid_of_createFromHexString hid, hid, videos_match_id, hr, hp]
  rfl

theorem user_set_watchHistory (u : User) (x : Value) :
    (u.toDoc.set "watchHistory" x).get? "watchHistory" = some x := by
  cases h : u.refreshToken <;> simp [User.toDoc, h, Doc.set, Doc.get?]

theorem getWatchHistory_found (uid : ObjectId) (w : World) (u : User)
    (hu : w.db.users.find? (fun x => x._id == uid) = some u) :
    getWatchHistory (some uid) w =
      (.ok ⟨200, ⟨200, "Watch history fetched successfully",
          some (.arr (((w.db.videos.filter (fun v => decide (v._id ∈ u.watchHistory))).map
            (enrichedVideo w.db)).map Value.doc))⟩⟩,
       w.logged (.aggregate "users")) := by
  obtain ⟨rest, hr⟩ := filter_of_find?_some _ _ _ hu
  simp only [getWatchHistory, idValue, users_match_id, hr, lookupStage, List.map_cons,
    user_get_watchHistory, videos_join_on_history, watchHistoryPipeline_eq,
    user_set_watchHistory]

theorem getWatchHistory_missing (user : Option ObjectId) (w : World)
    (hno : ∀ u ∈ w.db.users, user ≠ some u._id) :
    getWatchHistory user w = (.error .typeError, w.logged (.aggregate "users")) := by
  have hf : matchStage "_id" (idValue user) (w.db.users.map User.toDoc) = [] := by
    rw [matchStage, List.filter_eq_nil_iff]
    intro d hd
    obtain ⟨u, hu, rfl⟩ := List.mem_map.1 hd
    have := hno u hu
    cases user with
    | none => simp [user_get_id, fieldEq, idValue, Value.scalarEq]
    | some i =>
      simp only [user_get_id, fieldEq, idValue, Value.scalarEq, beq_iff_eq]
      intro h
      exact this (by rw [h])
  simp [getWatchHistory, hf, lookupStage]


/-! ## Ownership gate -/

/-- C1: for every stored Video or Tweet and every acting identity that is not value-equal to
the stored owner (an absent identity included), each of `updateTweet`, `deleteTweet`,
`updateVideo`, `deleteVideo` and `togglePublishStatus` throws its not-owner error and leaves the
database, the media store and the disk unchanged; the same call on the resulting world throws
the same error and again changes nothing. -/
theorem ownership_gate (m : Mutation) (user : Option ObjectId) (w : World) (owner : ObjectId)
    (hstored : m.storedOwner w = some owner) (hne : user ≠ some owner) :
    (m.run user w).1 = .error m.notOwnerError ∧
    (m.run user w).2.db = w.db ∧ (m.run user w).2.cloud = w.cloud ∧
    (m.run user w).2.disk = w.disk ∧
    (m.run user (m.run user w).2).1 = .error m.notOwnerError ∧
    (m.run user (m.run user w).2).2.db = w.db ∧
    (m.run user (m.run user w).2).2.cloud = w.cloud ∧
    (m.run user (m.run user w).2).2.disk = w.disk := by
  obtain ⟨op, h1⟩ := run_not_owner m user w owner hstored hne
  have hstored2 : m.storedOwner (w.logged op) = some owner := by
    rw [storedOwner_logged]; exact hstored
  obtain ⟨op2, h2⟩ := run_not_owner m user (w.logged op) owner hstored2 hne
  rw [h1]
  simp only [h2, logged_db, logged_cloud, logged_disk, and_self]

/-- Witness for C1: bob (identity 2) tries to delete video 16, which alice (identity 1) owns. -/
theorem ownership_gate_witness :
    (Mutation.deleteVideo "000000000000000000000010").storedOwner sampleWorld = some 1 ∧
    ((Mutation.deleteVideo "000000000000000000000010").run (some 2) sampleWorld).1 =
      .error (.apiError 401 "user is not authorized to delete this video") ∧
    ((Mutation.deleteVideo "000000000000000000000010").run (some 2) sampleWorld).2.db
      = sampleDb :=
  have h := ownership_gate (.deleteVideo "000000000000000000000010") (some 2) sampleWorld 1
    (by decide) (by decide)
  ⟨by decide, h.1, h.2.1⟩

/-! ## Deletion of a video and its assets -/

/-- C2: when the acting identity owns the addressed video and the media store rejects the
deletion of the video file or of the thumbnail, `deleteVideo` throws, the database is unchanged
(so the Video record is still stored) and the only persistence call issued is the `findById`:
no `deleteOne` is issued. -/
theorem deleteVideo_asset_failure (user : Option ObjectId) (videoId : String) (w : World)
    (i : ObjectId) (v : Video)
    (hid : createFromHexString videoId = some i)
    (hfind : w.db.videos.find? (fun x => x._id == i) = some v)
    (howner : user = some v.owner)
    (hfail : v.videoFile ∈ w.cloud.rejectsDestroy ∨ v.thumbnail ∈ w.cloud.rejectsDestroy) :
    (deleteVideo user videoId w).1 = .error .referenceError ∧
    (deleteVideo user videoId w).2.db = w.db ∧
    v ∈ (deleteVideo user videoId w).2.db.videos ∧
    (deleteVideo user videoId w).2.log = w.log ++ [.findById "videos" videoId] := by
  have hvalid := isValid_of_createFromHexString hid
  have heq : equals v.owner user = true := (equals_eq_true_iff _ _).2 howner
  have hmem : v ∈ w.db.videos := List.mem_of_find?_eq_some hfind
  by_cases h1 : v.videoFile ∈ w.cloud.rejectsDestroy
  · simp [deleteVideo, Video.findById, hid, hfind, heq, hvalid, deleteFromUrl, h1, hmem]
  · have h2 : v.thumbnail ∈ w.cloud.rejectsDestroy := hfail.resolve_left h1
    simp [deleteVideo, Video.findById, hid, hfind, heq, hvalid, deleteFromUrl, h1, h2, hmem]

/-- Witness for C2: alice deletes her video 16 while the store rejects the deletion of its
thumbnail. -/
theorem deleteVideo_asset_failure_witness :
    (deleteVideo (some 1) "000000000000000000000010" sampleWorld).1 = .error .referenceError ∧
    video16 ∈ (deleteVideo (some 1) "000000000000000000000010" sampleWorld).2.db.videos :=
  have h := deleteVideo_asset_failure (some 1) "000000000000000000000010" sampleWorld 16 video16
    (by decide) (by decide) (by decide) (by decide)
  ⟨h.1, h.2.2.1⟩

/-! ## Owner projection -/

/-- The owner object joined into a tweet has exactly the three projected keys. -/
theorem enrichedTweet_ownerKeys (db : Database) (t : Tweet) (ks : List String)
    (h : ownerKeys (enrichedTweet db t) = some ks) : ks = ["username", "email", "avatar"] := by
  cases hf : db.users.find? (fun u => u._id == t.owner) with
  | none => simp [ownerKeys, enrichedTweet, hf, Doc.get?] at h
  | some u =>
    simp [ownerKeys, enrichedTweet, hf, Doc.get?, tweetOwnerView, Doc.keys] at h
    exact h.symm

/-- The owner object joined into a video carries `_id` besides the three projected keys. -/
theorem enrichedVideo_ownerKeys (db : Database) (v : Video) (ks : List String)
    (h : ownerKeys (enrichedVideo db v) = some ks) :
    ks = ["_id", "username", "email", "avatar"] := by
  cases hf : db.users.find? (fun u => u._id == v.owner) with
  | none => simp [ownerKeys, enrichedVideo, hf, Doc.get?] at h
  | some u =>
    simp [ownerKeys, enrichedVideo, hf, Doc.get?, videoOwnerView, Doc.keys] at h
    exact h.symm

/-- C3, evaluated: `getVideoById` on the stored video 16 and `getWatchHistory` for bob return
owner objects whose keys are `_id`, `username`, `email`, `avatar`, so the key set is not
exactly the three projected fields; `getUserTweets` for alice returns the three keys only. -/
theorem owner_keys_include_id :
    (dataDocs (getVideoById "000000000000000000000010" sampleWorld)).map ownerKeys =
      [some ["_id", "username", "email", "avatar"]] ∧
    (dataDocs (getWatchHistory (some 2) sampleWorld)).map ownerKeys =
      [some ["_id", "username", "email", "avatar"],
       some ["_id", "username", "email", "avatar"]] ∧
    (dataDocs (getUserTweets "000000000000000000000001" sampleWorld)).map ownerKeys =
      [some ["username", "email", "avatar"]] := by
  decide

/-! ## Identifier validation -/

/-- The four video handlers that take an identifier reject a string that is not an identifier
with the 400 error and leave the world, its log included, as it was. -/
theorem video_handlers_reject_invalid (user : Option ObjectId) (videoId : String)
    (title description path : Option String) (w : World)
    (h : isValidObjectId videoId = false) :
    getVideoById videoId w = (.error (.apiError 400 "videoID is invalid"), w) ∧
    updateVideo user videoId title description path w =
      (.error (.apiError 400 "videoID is invalid"), w) ∧
    deleteVideo user videoId w = (.error (.apiError 400 "videoID is invalid"), w) ∧
    togglePublishStatus user videoId w = (.error (.apiError 400 "videoID is invalid"), w) := by
  simp [getVideoById, updateVideo, deleteVideo, togglePublishStatus, h]

/-- The two tweet handlers that take a tweet identifier call `findById` with whatever string
they receive: a string that is not an identifier yields a CastError after that call. -/
theorem tweet_handlers_cast_invalid (user : Option ObjectId) (tweetId : String)
    (newContent : Option String) (w : World) (h : isValidObjectId tweetId = false) :
    updateTweet user tweetId newContent w =
      (.error .castError, w.logged (.findById "tweets" tweetId)) ∧
    deleteTweet user tweetId w = (.error .castError, w.logged (.findById "tweets" tweetId)) := by
  simp [updateTweet, deleteTweet, Tweet.findById, createFromHexString_eq_none h]

/-- C4, evaluated: for the string "xyz", which is not an identifier, `updateTweet` and
`deleteTweet` issue `findById` and throw a CastError, and `getUserTweets` throws a BSONError;
none of the three throws the 400 error. -/
theorem tweet_handlers_skip_validation :
    isValidObjectId "xyz" = false ∧
    (updateTweet (some 1) "xyz" (some "hi") sampleWorld).error? = some .castError ∧
    (updateTweet (some 1) "xyz" (some "hi") sampleWorld).2.log = [.findById "tweets" "xyz"] ∧
    (deleteTweet (some 1) "xyz" sampleWorld).error? = some .castError ∧
    (deleteTweet (some 1) "xyz" sampleWorld).2.log = [.findById "tweets" "xyz"] ∧
    (getUserTweets "xyz" sampleWorld).error? = some .bsonError := by
  decide

/-! ## Empty listings -/

/-- Counterexample to C5: no stored tweet is owned by bob (identity 2), and `getUserTweets` for
bob throws the 500 error instead of succeeding with an empty sequence. -/
theorem getUserTweets_empty_is_error :
    sampleDb.tweets.filter (fun t => t.owner == 2) = [] ∧
    (getUserTweets "000000000000000000000002" sampleWorld).error? =
      some (.apiError 500 "could not fetch tweets") ∧
    (getUserTweets "000000000000000000000002" sampleWorld).failed = true := by
  decide

/-- C5, amended: `getAllVideos`, once its filter is built, succeeds with status 200 and an
empty sequence whenever the query yields no row; `getUserTweets`, for a user identifier no
stored tweet is owned by, throws the 500 error "could not fetch tweets". -/
theorem empty_listing
    (find : VideoFilter → Option (String × String) → Int → Int → Database → Except Err (List Video))
    (q : VideoQuery) (w : World) (owner : Option ObjectId)
    (userId : String) (w2 : World) (tweetOwner : ObjectId)
    (hfilter : ownerFilter q.userId = .ok owner)
    (hrows : find { owner := owner, regex := regexFilter q.query } (sortSpec q.sortBy q.sortType)
      ((q.page.getD 1 - 1) * q.limit.getD 10) (q.limit.getD 10) w.db = .ok [])
    (hid : createFromHexString (trim userId) = some tweetOwner)
    (hnone : ∀ t ∈ w2.db.tweets, t.owner ≠ tweetOwner) :
    (getAllVideos find q w).1 =
      .ok ⟨200, ⟨200, "no videos found for this search", some (.arr [])⟩⟩ ∧
    (getUserTweets userId w2).1 = .error (.apiError 500 "could not fetch tweets") := by
  constructor
  · simp [getAllVideos, hfilter, hrows]
  · have hf : w2.db.tweets.filter (fun t => t.owner == tweetOwner) = [] := by
      rw [List.filter_eq_nil_iff]
      intro t ht
      simpa using hnone t ht
    rw [getUserTweets_eq userId w2 tweetOwner hid, hf]
    rfl

/-- Witness for C5, amended: listing the videos of identity 3, who owns none, and the tweets of
bob, who has none. -/
theorem empty_listing_witness :
    ownerFilter (some "000000000000000000000003") = .ok (some 3) ∧
    (getAllVideos ownerOnlyFind
        { page := none, limit := none, query := none, sortBy := none, sortType := none,
          userId := some "000000000000000000000003" } sampleWorld).1 =
      .ok ⟨200, ⟨200, "no videos found for this search", some (.arr [])⟩⟩ ∧
    (getUserTweets "000000000000000000000002" sampleWorld).1 =
      .error (.apiError 500 "could not fetch tweets") :=
  ⟨rfl,
   empty_listing ownerOnlyFind
     { page := none, limit := none, query := none, sortBy := none, sortType := none,
       userId := some "000000000000000000000003" } sampleWorld (some 3)
     "000000000000000000000002" sampleWorld 2 rfl rfl (by decide) (by decide)⟩

/-! ## Watch history -/

/-- A user with an empty watch-history list gets status 200 and an empty sequence. -/
theorem getWatchHistory_empty_history (uid : ObjectId) (w : World) (u : User)
    (hu : w.db.users.find? (fun x => x._id == uid) = some u) (hempty : u.watchHistory = []) :
    (getWatchHistory (some uid) w).1 =
      .ok ⟨200, ⟨200, "Watch history fetched successfully", some (.arr [])⟩⟩ := by
  rw [getWatchHistory_found uid w u hu, hempty]
  simp

/-- C6, evaluated: when the requesting identity is absent, or matches no stored user
(identity 9), `getWatchHistory` throws a TypeError, not a NotFound error; for alice, whose
watch history is empty, it succeeds with an empty sequence. -/
theorem getWatchHistory_unknown_user :
    (getWatchHistory none sampleWorld).error? = some .typeError ∧
    (getWatchHistory (some 9) sampleWorld).error? = some .typeError ∧
    (dataDocs (getWatchHistory (some 1) sampleWorld)).length = 0 ∧
    ((getWatchHistory (some 1) sampleWorld).response?.map (fun r => r.status)) = some 200 := by
  decide

/-- Counterexample to C7: bob's watch history lists video 17 before video 16, both stored; the
returned sequence is video 16 then video 17, the order of the Video collection. -/
theorem getWatchHistory_not_list_order :
    sampleDb.users.find? (fun x => x._id == 2) = some bob ∧
    bob.watchHistory = [17, 16] ∧
    (∀ i ∈ bob.watchHistory, ∃ v ∈ sampleDb.videos, v._id = i) ∧
    docIds (dataDocs (getWatchHistory (some 2) sampleWorld)) = [16, 17] ∧
    docIds (dataDocs (getWatchHistory (some 2) sampleWorld)) ≠ bob.watchHistory := by
  decide

/-- C7, amended: for every stored user, `getWatchHistory` returns, with status 200, the
enriched Video of every stored video whose `_id` occurs in the user's watch-history list, each
once, in the order in which the videos are stored in the Video collection. -/
theorem getWatchHistory_storage_order (uid : ObjectId) (w : World) (u : User)
    (hu : w.db.users.find? (fun x => x._id == uid) = some u) :
    (getWatchHistory (some uid) w).1 =
      .ok ⟨200, ⟨200, "Watch history fetched successfully",
        some (.arr (((w.db.videos.filter (fun v => decide (v._id ∈ u.watchHistory))).map
          (enrichedVideo w.db)).map Value.doc))⟩⟩ := by
  rw [getWatchHistory_found uid w u hu]

/-- Witness for C7, amended: bob's watch history. -/
theorem getWatchHistory_storage_order_witness :
    sampleDb.users.find? (fun x => x._id == 2) = some bob ∧
    (getWatchHistory (some 2) sampleWorld).1 =
      .ok ⟨200, ⟨200, "Watch history fetched successfully",
        some (.arr [.doc (enrichedVideo sampleDb video16),
                    .doc (enrichedVideo sampleDb video17)])⟩⟩ :=
  ⟨by decide, getWatchHistory_storage_order 2 sampleWorld bob (by decide)⟩

/-! ## Channel profile -/

/-- C8: for every user `u` found under a non-empty username, `getUserChannelProfile` returns
`subscribers` equal to the number of Subscription rows whose channel is `u` and `subscribedTo`
equal to the number of rows whose subscriber is `u`. -/
theorem channel_counts (user : Option ObjectId) (name : String) (w : World) (u : User)
    (hname : truthy name = true)
    (hu : w.db.users.find? (fun x => x.username == name) = some u) :
    ∃ d : Doc,
      (getUserChannelProfile user (some name) w).1 =
        .ok ⟨200, ⟨200, "channel details fetched successfully", some (.doc d)⟩⟩ ∧
      d.get? "subscribers" =
        some (.num (w.db.subscriptions.countP (fun s => s.channel == u._id))) ∧
      d.get? "subscribedTo" =
        some (.num (w.db.subscriptions.countP (fun s => s.subscriber == u._id))) := by
  refine ⟨channelProfile w.db user u, ?_, ?_, ?_⟩
  · rw [getUserChannelProfile_found user name w u hname hu]
  · simp [channelProfile, Doc.get?]
  · simp [channelProfile, Doc.get?]

/-- Witness for C8: two rows target alice (2 subscribers) and she follows nobody (0). -/
theorem channel_counts_witness :
    ∃ d : Doc,
      (getUserChannelProfile (some 2) (some "alice") sampleWorld).1 =
        .ok ⟨200, ⟨200, "channel details fetched successfully", some (.doc d)⟩⟩ ∧
      d.get? "subscribers" = some (.num 2) ∧ d.get? "subscribedTo" = some (.num 0) :=
  channel_counts (some 2) "alice" sampleWorld alice (by decide) (by decide)

/-- C9: for every user `u` found under a non-empty username and every request,
`getUserChannelProfile` succeeds and returns `isSubscribed` true exactly when a requesting
identity is present and some Subscription row has it as subscriber and `u` as channel; so it is
false when no identity is present and when no row targets the channel. -/
theorem channel_isSubscribed (user : Option ObjectId) (name : String) (w : World) (u : User)
    (hname : truthy name = true)
    (hu : w.db.users.find? (fun x => x.username == name) = some u) :
    ∃ (d : Doc) (b : Bool),
      (getUserChannelProfile user (some name) w).1 =
        .ok ⟨200, ⟨200, "channel details fetched successfully", some (.doc d)⟩⟩ ∧
      d.get? "isSubscribed" = some (.bool b) ∧
      (b = true ↔ ∃ i, user = some i ∧
        ∃ s ∈ w.db.subscriptions, s.subscriber = i ∧ s.channel = u._id) ∧
      (user = none → b = false) ∧
      ((∀ s ∈ w.db.subscriptions, s.channel ≠ u._id) → b = false) := by
  have hiff : isSubscribedBy w.db user u = true ↔ ∃ i, user = some i ∧
      ∃ s ∈ w.db.subscriptions, s.subscriber = i ∧ s.channel = u._id := by
    cases user with
    | none => simp [isSubscribedBy]
    | some i => simp [isSubscribedBy]
  refine ⟨channelProfile w.db user u, isSubscribedBy w.db user u, ?_, ?_, hiff, ?_, ?_⟩
  · rw [getUserChannelProfile_found user name w u hname hu]
  · simp [channelProfile, Doc.get?]
  · intro hnone
    subst hnone
    rfl
  · intro hno
    cases hb : isSubscribedBy w.db user u with
    | false => rfl
    | true =>
      obtain ⟨i, _, s, hs, _, hc⟩ := hiff.1 hb
      exact absurd hc (hno s hs)

/-- Witness for C9: alice's channel, requested without an identity. -/
theorem channel_isSubscribed_witness :
    ∃ (d : Doc) (b : Bool),
      (getUserChannelProfile none (some "alice") sampleWorld).1 =
        .ok ⟨200, ⟨200, "channel details fetched successfully", some (.doc d)⟩⟩ ∧
      d.get? "isSubscribed" = some (.bool b) ∧ b = false :=
  have ⟨d, b, h1, h2, _, h4, _⟩ :=
    channel_isSubscribed none "alice" sampleWorld alice (by decide) (by decide)
  ⟨d, b, h1, h2, h4 rfl⟩

/-- C10: for every non-empty username, `getUserChannelProfile` throws the 404 error when no
stored user has that username, and when a stored user has it, succeeds with status 200 and a
single flat object with the six fields `username`, `email`, `avatar`, `subscribers`,
`subscribedTo` and `isSubscribed` of the first such user. -/
theorem channel_found_or_404 (user : Option ObjectId) (name : String) (w : World)
    (hname : truthy name = true) :
    ((∀ u ∈ w.db.users, u.username ≠ name) →
      (getUserChannelProfile user (some name) w).1 =
        .error (.apiError 404 "channel does not exists")) ∧
    (∀ u, w.db.users.find? (fun x => x.username == name) = some u →
      ∃ (subscribers subscribedTo : Int) (isSubscribed : Bool),
        (getUserChannelProfile user (some name) w).1 =
          .ok ⟨200, ⟨200, "channel details fetched successfully",
            some (.doc [("username", .str u.username), ("email", .str u.email),
                        ("avatar", .str u.avatar), ("subscribers", .num subscribers),
                        ("subscribedTo", .num subscribedTo),
                        ("isSubscribed", .bool isSubscribed)])⟩⟩) := by
  constructor
  · intro hno
    rw [getUserChannelProfile_missing user name w hname hno]
  · intro u hu
    exact ⟨_, _, _, by rw [getUserChannelProfile_found user name w u hname hu]; rfl⟩

/-- Witness for C10: nobody is called "ghost". -/
theorem channel_found_or_404_witness :
    (getUserChannelProfile (some 2) (some "ghost") sampleWorld).1 =
      .error (.apiError 404 "channel does not exists") :=
  (channel_found_or_404 (some 2) "ghost" sampleWorld (by decide)).1 (by decide)

/-! ## Trimming and tweet content -/

theorem trim_data (s : String) :
    (trim s).data = List.rdropWhile isWhiteSpace (s.data.dropWhile isWhiteSpace) := rfl

theorem trim_eq_nil_iff (s : String) :
    (trim s).data = [] ↔ ∀ c ∈ s.data, isWhiteSpace c = true := by
  rw [trim_data, List.rdropWhile_eq_nil_iff]
  constructor
  · intro h
    have hnil : s.data.dropWhile isWhiteSpace = [] := by
      by_contra hne
      have h1 := List.head_dropWhile_not isWhiteSpace s.data hne
      have h2 := h _ (List.head_mem hne)
      rw [h1] at h2
      exact Bool.noConfusion h2
    exact List.dropWhile_eq_nil_iff.1 hnil
  · intro h
    rw [List.dropWhile_eq_nil_iff.2 h]
    simp

theorem trim_trim_ne_nil (s : String) (h : (trim s).data ≠ []) : (trim (trim s)).data ≠ [] := by
  intro hnil
  have hall := (trim_eq_nil_iff (trim s)).1 hnil
  have hlast := List.rdropWhile_last_not isWhiteSpace (s.data.dropWhile isWhiteSpace) h
  exact hlast (hall _ (List.getLast_mem h))

theorem ne_nil_of_length_ne_zero (s : String) (h : ¬((s.data.length == 0) = true)) :
    s.data ≠ [] := by
  intro hnil
  exact h (by rw [hnil]; rfl)

theorem Tweet.findById_db (id : String) (w : World) : (Tweet.findById id w).2.db = w.db := by
  unfold Tweet.findById
  split <;> rfl

theorem Tweet.create_tweets (content : String) (owner : Option ObjectId) (w : World) :
    (Tweet.create content owner w).2.db.tweets = w.db.tweets ∨
    ∃ o, (Tweet.create content owner w).2.db.tweets =
      w.db.tweets ++ [{ _id := w.nextId, content := content, owner := o }] := by
  cases owner with
  | none => exact Or.inl rfl
  | some o => exact Or.inr ⟨o, rfl⟩

theorem createTweet_keeps_content (user : Option ObjectId) (content : Option String) (w : World)
    (hinv : ∀ t ∈ w.db.tweets, t.contentNonEmpty = true) :
    ∀ t ∈ (createTweet user content w).2.db.tweets, t.contentNonEmpty = true := by
  unfold createTweet
  split
  · exact hinv
  · rename_i c
    split
    · exact hinv
    · rename_i hlen
      have hne := ne_nil_of_length_ne_zero _ hlen
      have hcreate := Tweet.create_tweets c user w
      split
      · rename_i e w1 heq
        rw [heq] at hcreate
        rcases hcreate with h | ⟨o, h⟩
        · intro t ht
          exact hinv t (h ▸ ht)
        · intro t ht
          have ht2 : t ∈ w.db.tweets ++ [{ _id := w.nextId, content := c, owner := o }] := h ▸ ht
          rcases List.mem_append.1 ht2 with h1 | h1
          · exact hinv t h1
          · rw [List.mem_singleton.1 h1]
            simpa [Tweet.contentNonEmpty] using hne
      · rename_i newTweet w1 heq
        rw [heq] at hcreate
        rcases hcreate with h | ⟨o, h⟩
        · intro t ht
          exact hinv t (h ▸ ht)
        · intro t ht
          have ht2 : t ∈ w.db.tweets ++ [{ _id := w.nextId, content := c, owner := o }] := h ▸ ht
          rcases List.mem_append.1 ht2 with h1 | h1
          · exact hinv t h1
          · rw [List.mem_singleton.1 h1]
            simpa [Tweet.contentNonEmpty] using hne

theorem updateTweet_keeps_content (user : Option ObjectId) (tweetId : String)
    (newContent : Option String) (w : World)
    (hinv : ∀ t ∈ w.db.tweets, t.contentNonEmpty = true) :
    ∀ t ∈ (updateTweet user tweetId newContent w).2.db.tweets, t.contentNonEmpty = true := by
  have hdb := Tweet.findById_db tweetId w
  unfold updateTweet
  split
  · rename_i e w1 heq
    rw [heq] at hdb
    intro t ht
    exact hinv t (by rw [← hdb]; exact ht)
  · rename_i w1 heq
    rw [heq] at hdb
    intro t ht
    exact hinv t (by rw [← hdb]; exact ht)
  · rename_i tw w1 heq
    rw [heq] at hdb
    have hdb2 : w1.db = w.db := hdb
    split
    · intro t ht
      exact hinv t (by rw [← hdb2]; exact ht)
    · split
      · intro t ht
        exact hinv t (by rw [← hdb2]; exact ht)
      · rename_i c
        split
        · intro t ht
          exact hinv t (by rw [← hdb2]; exact ht)
        · rename_i hlen
          have hne := ne_nil_of_length_ne_zero _ hlen
          intro t ht
          have ht2 : t ∈ w1.db.tweets.map
              (fun x => if x._id == tw._id then { tw with content := trim c } else x) := ht
          obtain ⟨x, hx, hxt⟩ := List.mem_map.1 ht2
          by_cases hxi : (x._id == tw._id) = true
          · rw [if_pos hxi] at hxt
            rw [← hxt]
            simpa [Tweet.contentNonEmpty] using trim_trim_ne_nil c hne
          · rw [if_neg hxi] at hxt
            rw [← hxt]
            exact hinv x (by rw [← hdb2]; exact hx)

theorem updateTweet_blank (user : Option ObjectId) (tweetId content : String) (w : World)
    (hblank : (trim content).data = []) :
    ∃ e, updateTweet user tweetId (some content) w =
        (.error e, w.logged (.findById "tweets" tweetId)) ∧
      (isValidObjectId tweetId = true → ∃ message, e = .apiError 400 message) := by
  have hlen : ((trim content).data.length == 0) = true := by rw [hblank]; rfl
  cases hid : createFromHexString tweetId with
  | none =>
    refine ⟨.castError, by simp only [updateTweet, Tweet.findById, hid], ?_⟩
    intro hv
    simp [createFromHexString, hv] at hid
  | some i =>
    cases hf : w.db.tweets.find? (fun t => t._id == i) with
    | none =>
      exact ⟨.apiError 400 "cannot find tweet",
        by simp only [updateTweet, Tweet.findById, hid, hf], fun _ => ⟨_, rfl⟩⟩
    | some tw =>
      cases ho : equals tw.owner user with
      | false =>
        exact ⟨.apiError 400 "current user is not the owner of this tweet",
          by simp [updateTweet, Tweet.findById, hid, hf, ho], fun _ => ⟨_, rfl⟩⟩
      | true =>
        refine ⟨.apiError 400 "tweet cannot be empty", ?_, fun _ => ⟨_, rfl⟩⟩
        simp only [updateTweet, Tweet.findById, hid, hf, ho, hlen]
        rfl

theorem createTweet_blank (user : Option ObjectId) (content : String) (w : World)
    (hblank : (trim content).data = []) :
    createTweet user (some content) w = (.error (.apiError 400 "tweet cannot be empty"), w) := by
  have hlen : ((trim content).data.length == 0) = true := by rw [hblank]; rfl
  simp only [createTweet, hlen]
  rfl


/-- C12, evaluated: `updateTweet` with the whitespace-only content " " and the tweet identifier
"xyz", which is not an identifier, throws the CastError of `findById`, not the 400 error; the
stored tweets are unchanged. -/
theorem updateTweet_blank_invalid_id :
    (trim " ").data = [] ∧ isValidObjectId "xyz" = false ∧
    (updateTweet (some 1) "xyz" (some " ") sampleWorld).error? = some .castError ∧
    (updateTweet (some 1) "xyz" (some " ") sampleWorld).2.db = sampleDb := by
  decide

/-! ## Username validation -/

/-- A missing or empty username is rejected with the 400 error and the world, its log included,
is left as it was. -/
theorem getUserChannelProfile_no_username (user : Option ObjectId) (username : Option String)
    (w : World) (h : username = none ∨ username = some "") :
    getUserChannelProfile user username w =
      (.error (.apiError 400 "username is missing"), w) := by
  rcases h with h | h <;> subst h <;> rfl

/-- Every non-empty username, also one of white space only, reaches the aggregate. -/
theorem getUserChannelProfile_queries (user : Option ObjectId) (name : String) (w : World)
    (hname : truthy name = true) :
    (getUserChannelProfile user (some name) w).2.log = w.log ++ [.aggregate "users"] := by
  simp only [getUserChannelProfile, hname, Bool.not_true, Bool.false_eq_true, if_false]
  split <;> rfl

/-- C11, evaluated: the username " " is empty after trimming, yet `getUserChannelProfile` does
not throw the 400 error: it issues the aggregate and throws the 404 error. -/
theorem channel_whitespace_username :
    (trim " ").data = [] ∧
    (getUserChannelProfile (some 2) (some " ") sampleWorld).error? =
      some (.apiError 404 "channel does not exists") ∧
    (getUserChannelProfile (some 2) (some " ") sampleWorld).2.log = [.aggregate "users"] := by
  decide

/-! ## The owner filter of getAllVideos -/

/-- When the guard on line 21 rejects the string, the filter carries no owner constraint. -/
theorem ownerFilter_rejected (userId : Option String)
    (h : ∀ u, userId = some u → (truthy u && isValidObjectId (trim u)) = false) :
    ownerFilter userId = .ok none := by
  cases userId with
  | none => rfl
  | some u => simp only [ownerFilter, h u rfl]; rfl

/-- When the guard accepts the string, the conversion of the string as received succeeds
exactly when that string is itself an identifier. -/
theorem ownerFilter_accepted (u : String)
    (h : (truthy u && isValidObjectId (trim u)) = true) :
    (isValidObjectId u = true → ownerFilter (some u) = .ok (some (hexValue u.data))) ∧
    (isValidObjectId u = false → ownerFilter (some u) = .error .bsonError) := by
  constructor
  · intro hv
    simp only [ownerFilter, h, createFromHexString, hv]
    rfl
  · intro hv
    simp only [ownerFilter, h, createFromHexString, hv]
    rfl

/-- C13, evaluated: for a userId with a leading space the guard on line 21 accepts the trimmed
string, the conversion of the untrimmed string on line 22 throws, and `getAllVideos` throws a
BSONError before any query. -/
theorem ownerFilter_untrimmed_throws :
    (truthy " 000000000000000000000010" &&
      isValidObjectId (trim " 000000000000000000000010")) = true ∧
    createFromHexString " 000000000000000000000010" = none ∧
    ownerFilter (some " 000000000000000000000010") = .error .bsonError ∧
    (getAllVideos ownerOnlyFind
        { page := none, limit := none, query := none, sortBy := none, sortType := none,
          userId := some " 000000000000000000000010" } sampleWorld).error? =
      some .bsonError ∧
    (getAllVideos ownerOnlyFind
        { page := none, limit := none, query := none, sortBy := none, sortType := none,
          userId := some " 000000000000000000000010" } sampleWorld).2.log = [] :=
  ⟨by decide, by decide, rfl, by decide, by decide⟩

end Fullstack
